import Mathlib

/-!
Verification of the graph-to-script compiler of the vs_rs repository.

The development shallowly embeds the compiler core:
  * `src/compiler.rs` : `compile`, `evaluate_functionn` (the execution-flow
    walker with its operand resolution and output cache),
  * `src/nodes.rs`    : `MyNodeTemplate`, `build_node` (port shapes per node
    kind) and `evaluate_data`,
  * `src/types.rs`    : `MyDataType`, `MyValueType`, `VariableValue`,
  * the parts of the external `egui_node_graph` crate the compiler reads
    (graph structure: nodes, input/output params, connections).

Modelling conventions:
  * slotmaps / secondary maps are association lists in iteration order;
    insertion into a map is modelled by prepending (lookup takes the first
    hit, which matches overwrite-on-insert semantics);
  * Rust `f64` payloads are modelled by their decimal rendering (a `String`):
    the compiler never computes with floats, it only ever calls
    `to_string()` on them;
  * `format!("var_{:?}", id.data())` is modelled as `"var_" ++ toString id`
    (an injective rendering of the opaque slotmap key, which is all the
    code relies on);
  * a Rust panic (`Vec` index out of bounds, `Option::unwrap` on `None`,
    slotmap index on a dead key) is modelled by a `panic` result value that
    propagates outward;
  * `evaluate_functionn` recurses along execution connections without any
    guard; the embedding adds an explicit fuel argument, and exhausting the
    fuel is reported by a distinct `fuelOut` result so that nontermination
    claims are statable;
  * the Rust `compile` prints the generated script and returns
    `Ok(MyValueType::Boolean { value: true })`; the embedding's success
    result bundles the returned value together with the printed script text
    and the final output cache so theorems can speak about all observables.
-/

/-- Slotmap keys are opaque handles; modelled as naturals. -/
abbrev NodeId := Nat
abbrev InputId := Nat
abbrev OutputId := Nat
abbrev FunctionId := Nat

/-- `types.rs` `MyDataType`. -/
inductive MyDataType where
  | String
  | Integer
  | Float
  | Boolean
  | Execution
deriving DecidableEq, Repr

/-- `types.rs` `MyValueType`. The `Float` payload is the decimal rendering of
the Rust `f64` (see the header); `Execution` carries a `String` as in the
source. -/
inductive MyValueType where
  | String (value : String)
  | Integer (value : Int)
  | Float (value : String)
  | Boolean (value : Bool)
  | Execution (value : String)
deriving DecidableEq, Repr

/-- `types.rs` `VariableValue` (variable/function-signature defaults). The
Rust `Integer` payload is an `f64` kept integral by the UI; modelled as
`Int`. `Float` as above. -/
inductive VariableValue where
  | String (value : String)
  | Integer (value : Int)
  | Float (value : String)
  | Boolean (value : Bool)
  | Execution
deriving DecidableEq, Repr

/-- `nodes.rs` `MyNodeTemplate`. `Function` carries the optional id of the
referenced `GraphFunction`. -/
inductive MyNodeTemplate where
  | Enter
  | Print
  | Ask
  | If
  | CategoryAdd
  | AddNumber
  | AddString
  | Function (f : Option FunctionId)
deriving DecidableEq, Repr

/-- `nodes.rs` `NodeType`: the execution-port shape of a node kind. -/
inductive NodeType where
  | ExecutedAndExecute (inName outName : String)
  | Executed (inName : String)
  | Execute (outName : String)
  | Data
deriving DecidableEq, Repr

/-- `egui_node_graph` `InputParamKind`. -/
inductive InputParamKind where
  | ConnectionOnly
  | ConnectionOrConstant
  | ConstantOnly
deriving DecidableEq, Repr

/-- `egui_node_graph` input parameter record (the fields the compiler reads). -/
structure InputParam where
  id : InputId
  node : NodeId
  name : String
  typ : MyDataType
  value : MyValueType
  kind : InputParamKind
deriving DecidableEq, Repr

/-- `egui_node_graph` output parameter record. -/
structure OutputParam where
  id : OutputId
  node : NodeId
  name : String
  typ : MyDataType
deriving DecidableEq, Repr

/-- `egui_node_graph` node: the template (stored in `user_data`) plus the
ordered port lists `(name, id)`. -/
structure Node where
  id : NodeId
  template : MyNodeTemplate
  inputs : List (String × InputId)
  outputs : List (String × OutputId)
deriving DecidableEq, Repr

/-- `egui_node_graph` `Graph`: slotmaps of nodes and params plus the
`connections : SecondaryMap<InputId, OutputId>`, all as association lists in
iteration order. -/
structure Graph where
  nodes : List (NodeId × Node)
  inputParams : List (InputId × InputParam)
  outputParams : List (OutputId × OutputParam)
  connections : List (InputId × OutputId)
deriving DecidableEq, Repr

/-- The transient `HashMap<OutputId, String>` output cache. -/
abbrev Cache := List (OutputId × String)

/-- `app.rs` `Variable` (name + typed default + removability). -/
structure Variable where
  name : String
  value : VariableValue
  removable : Bool
deriving DecidableEq, Repr

/-- `app.rs` `FunctionIO`: one entry of a function's declared signature.
(Named `FunctionIo` in the embedding.) -/
structure FunctionIo where
  name : String
  value : VariableValue
deriving DecidableEq, Repr

/-- `app.rs` `GraphFunction`. The `graph` field collapses the
`NodeGraphExample.state.graph` wrapper chain to the inner `Graph`, which is
all the compiler reads. -/
structure GraphFunction where
  graph : Graph
  name : String
  removable : Bool
  modifiable_name : Bool
  variables_list : List Variable
  input : List FunctionIo
  output : List FunctionIo
deriving DecidableEq, Repr

/-- `app.rs` `AppState` (the fields `compile` reads): the function catalog
`SlotMap<FunctionId, GraphFunction>` in iteration order, plus the designated
main function id. -/
structure AppState where
  functions : List (FunctionId × GraphFunction)
  main_graph_id : FunctionId
deriving DecidableEq, Repr

/-! ## Graph lookups (`egui_node_graph` accessors used by the compiler) -/

/-- `graph.nodes.get(id)`. -/
def lookupNode (g : Graph) (n : NodeId) : Option Node :=
  (g.nodes.find? (fun p => p.1 == n)).map (fun p => p.2)

/-- `graph[input_id]` as an `Option` (a dead key panics in Rust; the panic is
handled at each use site). -/
def lookupInputParam (g : Graph) (i : InputId) : Option InputParam :=
  (g.inputParams.find? (fun p => p.1 == i)).map (fun p => p.2)

/-- `graph[output_id]` as an `Option`. -/
def lookupOutputParam (g : Graph) (o : OutputId) : Option OutputParam :=
  (g.outputParams.find? (fun p => p.1 == o)).map (fun p => p.2)

/-- `graph.connection(input_id)`: the at-most-one output feeding this input. -/
def graphConnection (g : Graph) (i : InputId) : Option OutputId :=
  (g.connections.find? (fun p => p.1 == i)).map (fun p => p.2)

/-- `node.inputs(graph)`: the node's input params in port order; `none` when
some id is dead (a Rust index panic). -/
def inputParamsOf (g : Graph) (n : Node) : Option (List InputParam) :=
  n.inputs.mapM (fun p => lookupInputParam g p.2)

/-- `node.outputs(graph)`: the node's output params in port order. -/
def outputParamsOf (g : Graph) (n : Node) : Option (List OutputParam) :=
  n.outputs.mapM (fun p => lookupOutputParam g p.2)

/-! ## Output cache operations -/

/-- `HashMap::insert` (overwrite): modelled by prepending; lookup takes the
first hit. -/
def cacheInsert (c : Cache) (o : OutputId) (s : String) : Cache :=
  (o, s) :: c

/-- `HashMap::get`. -/
def cacheFind (c : Cache) (o : OutputId) : Option String :=
  (c.find? (fun p => p.1 == o)).map (fun p => p.2)

/-! ## Operand resolution (the input loop of `evaluate_functionn`) -/

/-- Inline rendering of an unconnected input's `MyValueType`
(`compiler.rs` lines 75-81): strings quoted, numbers and booleans by
`to_string()`, `Execution` the empty string. -/
def renderValue : MyValueType → String
  | .String value => "\"" ++ value ++ "\""
  | .Integer value => toString value
  | .Float value => value
  | .Boolean value => toString value
  | .Execution _ => ""

/-- One iteration of the input loop of `evaluate_functionn`
(`compiler.rs` lines 60-84): an `Execution` input contributes `none`; a
connected input contributes the cached text of its source output, or `none`
when that output is not in the cache; an unconnected input contributes its
rendered inline value. -/
def resolveInput (g : Graph) (cache : Cache) (p : InputParam) : Option String :=
  if p.typ = .Execution then none
  else
    match graphConnection g p.id with
    | some z => cacheFind cache z
    | none => some (renderValue p.value)

/-- `nodes.rs` `evaluate_data`: the (never actually invoked) data-node
expression hook. -/
def evaluate_data (t : MyNodeTemplate) (inputs : List String) : Option String :=
  match t with
  | .AddNumber =>
    match inputs.get? 0, inputs.get? 1 with
    | some a, some b => some ("(+ " ++ a ++ " " ++ b ++ ")")
    | _, _ => none
  | .AddString =>
    match inputs.get? 0, inputs.get? 1 with
    | some a, some b => some ("(.. " ++ a ++ " " ++ b ++ ")")
    | _, _ => none
  | _ => some ""

/-! ## The execution-flow walker (`evaluate_functionn`) -/

/-- Result of a walker step: the produced script text together with the
mutated cache, or a propagated Rust panic, or fuel exhaustion (the Rust code
has no termination guard; `fuelOut` marks a run that did not finish within
the given recursion budget). -/
inductive ERes (α : Type) where
  | ok (a : α)
  | panic
  | fuelOut
deriving DecidableEq, Repr

/-- The statement text of one control node (`compiler.rs` lines 120-132),
evaluated after the execution branches have been collected. `none` is a
panic: `Print` indexes `filtered_inputs[0]`, and `Ask` indexes
`next_node.outputs[2]` and unwraps the cache entry. The `If`,
`CategoryAdd`, `AddNumber` and `AddString` templates have no arm in
`compiler.rs`'s match and are mapped to a panic; they are unreachable on the
walker path since data-kind nodes expose no execution ports. -/
def scriptLine (n : Node) (cache : Cache) (filtered executions : List String) :
    Option String :=
  match n.template with
  | .Enter => some ""
  | .Print =>
    match filtered.get? 0 with
    | some a => some ("io.write(" ++ a ++ ")")
    | none => none
  | .Ask =>
    match n.outputs.get? 2 with
    | none => none
    | some po =>
      match cacheFind cache po.2 with
      | none => none
      | some tmp =>
        match filtered.get? 0 with
        | none => none
        | some a =>
          some ("local " ++ tmp ++ " = io.read(" ++ a ++ ", (func -> " ++
            ((executions.get? 1).getD "default") ++ "))")
  | .Function _ => some ""
  | _ => none

/-- The output loop of `evaluate_functionn` (`compiler.rs` lines 96-102):
execution outputs are collected into `executions_index`, every other output
is pre-registered in the cache under a fresh `var_` name. -/
def collectOutputs (os : List OutputParam) (cache : Cache) :
    List OutputId × Cache :=
  os.foldl
    (fun acc p =>
      if p.typ = .Execution then (acc.1 ++ [p.id], acc.2)
      else (acc.1, cacheInsert acc.2 p.id ("var_" ++ toString p.id)))
    ([], cache)

/-- The inner connection scan (`compiler.rs` lines 105-115): every
connection targeting the execution output `y` triggers a recursive walk of
the node owning the connection's input side (the walk at the next lower
fuel is passed in as `ev`); a dead input param is a Rust index panic, a
dead node contributes the empty script. -/
def runConns (ev : Node → Cache → ERes (String × Cache)) (g : Graph)
    (y : OutputId) :
    List (InputId × OutputId) → Cache → ERes (List String × Cache)
  | [], cache => .ok ([], cache)
  | c :: rest, cache =>
    if c.2 = y then
      match lookupInputParam g c.1 with
      | none => .panic
      | some ip =>
        match lookupNode g ip.node with
        | none =>
          match runConns ev g y rest cache with
          | .panic => .panic
          | .fuelOut => .fuelOut
          | .ok sc => .ok ("" :: sc.1, sc.2)
        | some z =>
          match ev z cache with
          | .panic => .panic
          | .fuelOut => .fuelOut
          | .ok sc =>
            match runConns ev g y rest sc.2 with
            | .panic => .panic
            | .fuelOut => .fuelOut
            | .ok sc' => .ok (sc.1 :: sc'.1, sc'.2)
    else runConns ev g y rest cache

/-- The outer execution loop (`compiler.rs` lines 104-116): one pass of the
connection scan per execution output, in port order. -/
def runExecs (ev : Node → Cache → ERes (String × Cache)) (g : Graph) :
    List OutputId → Cache → ERes (List String × Cache)
  | [], cache => .ok ([], cache)
  | y :: ys, cache =>
    match runConns ev g y g.connections cache with
    | .panic => .panic
    | .fuelOut => .fuelOut
    | .ok sc =>
      match runExecs ev g ys sc.2 with
      | .panic => .panic
      | .fuelOut => .fuelOut
      | .ok sc' => .ok (sc.1 ++ sc'.1, sc'.2)

/-- `evaluate_functionn` (`compiler.rs` lines 51-141): resolve the operand
list, pre-register non-execution outputs, recursively compile every node
reached from an execution output, build the node's own statement line, and
return it with the first branch (or `"default"`) appended after `" -- "`.
The source recurses unboundedly; the embedding spends one unit of fuel per
nesting level. -/
def evalNode : Nat → Graph → Node → Cache → ERes (String × Cache)
  | 0, _, _, _ => .fuelOut
  | Nat.succ fuel', g, n, cache =>
    match inputParamsOf g n with
    | none => .panic
    | some ps =>
      let filtered := (ps.map (fun p => resolveInput g cache p)).filterMap id
      match outputParamsOf g n with
      | none => .panic
      | some os =>
        let idxCache := collectOutputs os cache
        match runExecs (fun z c => evalNode fuel' g z c) g idxCache.1 idxCache.2 with
        | .panic => .panic
        | .fuelOut => .fuelOut
        | .ok sc =>
          match scriptLine n sc.2 filtered sc.1 with
          | none => .panic
          | some line => .ok (line ++ " -- " ++ ((sc.1.get? 0).getD "default"), sc.2)

/-! ## The compile entry point (`compiler.rs` `compile`) -/

/-- Overall result of one `compile` call. `err` is the returned
`Err(String)`; `ok` bundles the returned value (`MyValueType::Boolean true`
in the source) with the printed script text and the final output cache;
`panic`/`fuelOut` as in `ERes`. -/
inductive RunRes where
  | err (e : String)
  | ok (v : MyValueType) (script : String) (cache : Cache)
  | panic
  | fuelOut
deriving DecidableEq, Repr

/-- The inner validation loop of `compile` (`compiler.rs` lines 15-28) over
one function's nodes: `st` is `is_enter_node_id` (`some` iff
`already_a_enter`). -/
def scanNodes (isMain : Bool) (enterT : MyNodeTemplate)
    (nodes : List (NodeId × Node)) (st : Option NodeId) :
    Except String (Option NodeId) :=
  match nodes with
  | [] => .ok st
  | p :: rest =>
    if p.2.template = enterT then
      if isMain then
        match st with
        | none => scanNodes isMain enterT rest (some p.1)
        | some _ => .error "You have Too many Enter Nodes"
      else .error "A Enter node in a function"
    else scanNodes isMain enterT rest st

/-- The outer validation loop of `compile` (`compiler.rs` lines 14-29) over
every function of the catalog. -/
def scanFunctions (mainId : FunctionId) (enterT : MyNodeTemplate)
    (fs : List (FunctionId × GraphFunction)) (st : Option NodeId) :
    Except String (Option NodeId) :=
  match fs with
  | [] => .ok st
  | f :: rest =>
    match scanNodes (f.1 = mainId) enterT f.2.graph.nodes st with
    | .error e => .error e
    | .ok st' => scanFunctions mainId enterT rest st'

/-- `app_state.functions.get(id)`. -/
def lookupFunction (fs : List (FunctionId × GraphFunction))
    (fid : FunctionId) : Option GraphFunction :=
  (fs.find? (fun p => p.1 == fid)).map (fun p => p.2)

/-- `compiler.rs` `compile` (lines 8-49): validate Enter-node uniqueness and
placement, then walk the graph from the Enter node with a fresh cache. On
success the source prints the walker's result and returns
`Ok(MyValueType::Boolean { value: true })`. -/
def compile (fuel : Nat) (s : AppState) (enterT : MyNodeTemplate) : RunRes :=
  match scanFunctions s.main_graph_id enterT s.functions none with
  | .error e => .err e
  | .ok none => .err "You don't have any Enter node"
  | .ok (some enterId) =>
    match lookupFunction s.functions s.main_graph_id with
    | none => .panic
    | some gf =>
      match lookupNode gf.graph enterId with
      | none => .panic
      | some nd =>
        match evalNode fuel gf.graph nd [] with
        | .panic => .panic
        | .fuelOut => .fuelOut
        | .ok sc => .ok (MyValueType.Boolean true) sc.1 sc.2

/-- Two `compile` invocations on the same unmodified snapshot, each with its
own fresh transient state, exactly as two presses of the Compile button
would run them. -/
def compileTwice (fuel : Nat) (s : AppState) (enterT : MyNodeTemplate) :
    RunRes × RunRes :=
  (compile fuel s enterT, compile fuel s enterT)

/-! ## Node construction (`nodes.rs` `get_node_params` and `build_node`) -/

/-- `nodes.rs` `get_node_params().node_type`. -/
def nodeTypeOf : MyNodeTemplate → NodeType
  | .Enter => .Execute "Enter"
  | .Print => .ExecutedAndExecute "" ""
  | .Ask => .ExecutedAndExecute "" ""
  | .If => .ExecutedAndExecute "" "Continue"
  | .CategoryAdd => .Data
  | .AddNumber => .Data
  | .AddString => .Data
  | .Function _ => .ExecutedAndExecute "" ""

/-- Specification of one input port to create: name, type, inline value,
kind (the arguments `build_node`'s closures pass to `add_input_param`). -/
structure InputSpec where
  name : String
  typ : MyDataType
  value : MyValueType
  kind : InputParamKind
deriving DecidableEq, Repr

/-- Specification of one output port to create. -/
structure OutputSpec where
  name : String
  typ : MyDataType
deriving DecidableEq, Repr

/-- `classic_input` in `build_node`. -/
def classicInput (name : String) (typ : MyDataType) (value : MyValueType) :
    InputSpec :=
  { name := name, typ := typ, value := value, kind := .ConnectionOrConstant }

/-- `exe_input` in `build_node`. -/
def exeInput (name : String) : InputSpec :=
  { name := name, typ := .Execution, value := .Execution "", kind := .ConnectionOnly }

/-- The input ports of a `FunctionIO` signature entry
(`build_node`, `Function` arm). -/
def sigInputSpec (e : FunctionIo) : InputSpec :=
  match e.value with
  | .Boolean x => classicInput e.name .Boolean (.Boolean x)
  | .String x => classicInput e.name .String (.String x)
  | .Integer x => classicInput e.name .Integer (.Integer x)
  | .Float x => classicInput e.name .Float (.Float x)
  | .Execution => exeInput e.name

/-- The output ports of a `FunctionIO` signature entry. -/
def sigOutputSpec (e : FunctionIo) : OutputSpec :=
  match e.value with
  | .Boolean _ => { name := e.name, typ := .Boolean }
  | .String _ => { name := e.name, typ := .String }
  | .Integer _ => { name := e.name, typ := .Integer }
  | .Float _ => { name := e.name, typ := .Float }
  | .Execution => { name := e.name, typ := .Execution }

/-- `nodes.rs` `build_node`: the ordered input and output port
specifications of a node of the given template. The structural execution
ports of `node_type` are created first, then the template-specific ports.
For a `Function` node the signature ports come from the referenced
`GraphFunction`'s `input`/`output` lists (passed here by the caller, empty
when the reference is absent). -/
def buildNodeSpecs (t : MyNodeTemplate) (sigIn sigOut : List FunctionIo) :
    List InputSpec × List OutputSpec :=
  let structural : List InputSpec × List OutputSpec :=
    match nodeTypeOf t with
    | .Execute x => ([], [{ name := x, typ := .Execution }])
    | .Executed x => ([exeInput x], [])
    | .ExecutedAndExecute x y => ([exeInput x], [{ name := y, typ := .Execution }])
    | .Data => ([], [])
  let extra : List InputSpec × List OutputSpec :=
    match t with
    | .Enter => ([], [])
    | .CategoryAdd => ([], [])
    | .AddNumber =>
      ([classicInput "What ?" .Integer (.Integer 0),
        classicInput "What ?" .Integer (.Integer 0)],
       [{ name := "What ?", typ := .Integer }])
    | .AddString =>
      ([classicInput "What ?" .String (.String ""),
        classicInput "What ?" .String (.String "")],
       [{ name := "What ?", typ := .String }])
    | .Ask =>
      ([classicInput "What ?" .String (.String "")],
       [{ name := "Answer", typ := .String }])
    | .If =>
      ([classicInput "" .Integer (.Integer 0)],
       [{ name := "If", typ := .Execution }, { name := "Else", typ := .Execution }])
    | .Print => ([classicInput "What ?" .String (.String "")], [])
    | .Function none => ([], [])
    | .Function (some _) => (sigIn.map sigInputSpec, sigOut.map sigOutputSpec)
  (structural.1 ++ extra.1, structural.2 ++ extra.2)

/-- Graph-under-construction: the growing graph plus a fresh-id counter (the
slotmap allocators; one shared counter keeps all handles distinct). -/
structure Builder where
  g : Graph
  next : Nat
deriving Repr

def Builder.empty : Builder :=
  { g := { nodes := [], inputParams := [], outputParams := [], connections := [] },
    next := 0 }

/-- Add a node of template `t` to the graph, creating its ports as
`build_node` does; returns the new builder and the node's id. -/
def Builder.addNode (b : Builder) (t : MyNodeTemplate)
    (sigIn sigOut : List FunctionIo) : Builder × NodeId :=
  let specs := buildNodeSpecs t sigIn sigOut
  let nid := b.next
  let inIds := (List.range specs.1.length).map (fun k => b.next + 1 + k)
  let outIds := (List.range specs.2.length).map (fun k => b.next + 1 + specs.1.length + k)
  let inPairs := specs.1.zip inIds
  let outPairs := specs.2.zip outIds
  let node : Node :=
    { id := nid, template := t,
      inputs := inPairs.map (fun p => (p.1.name, p.2)),
      outputs := outPairs.map (fun p => (p.1.name, p.2)) }
  let b' : Builder :=
    { g :=
        { nodes := b.g.nodes ++ [(nid, node)],
          inputParams := b.g.inputParams ++ inPairs.map (fun p =>
            (p.2, { id := p.2, node := nid, name := p.1.name, typ := p.1.typ,
                    value := p.1.value, kind := p.1.kind })),
          outputParams := b.g.outputParams ++ outPairs.map (fun p =>
            (p.2, { id := p.2, node := nid, name := p.1.name, typ := p.1.typ })),
          connections := b.g.connections },
      next := b.next + 1 + specs.1.length + specs.2.length }
  (b', nid)

/-- `Graph::add_connection` / `SecondaryMap::insert`: connect input `i` to
output `o`, superseding any prior connection of `i`. -/
def Builder.connect (b : Builder) (i : InputId) (o : OutputId) : Builder :=
  { b with g := { b.g with
      connections := (i, o) :: b.g.connections.filter (fun p => p.1 ≠ i) } }

/-- Override the inline value of an input param (the editor's inline value
widget). -/
def Builder.setInputValue (b : Builder) (i : InputId) (v : MyValueType) : Builder :=
  { b with g := { b.g with
      inputParams := b.g.inputParams.map (fun p =>
        if p.1 = i then (p.1, { p.2 with value := v }) else p) } }

/-! ## Enter-node counting (used to state the validation claims) -/

/-- Number of nodes of template `t` in a node list. -/
def countEnterNodes (t : MyNodeTemplate) : List (NodeId × Node) → Nat
  | [] => 0
  | p :: rest => (if p.2.template = t then 1 else 0) + countEnterNodes t rest

/-- Number of nodes of template `t` in one graph. -/
def enterCountGraph (g : Graph) (t : MyNodeTemplate) : Nat :=
  countEnterNodes t g.nodes

/-- Number of nodes of template `t` across the whole catalog. -/
def totalEnterCount (s : AppState) (t : MyNodeTemplate) : Nat :=
  (s.functions.map (fun f => enterCountGraph f.2.graph t)).sum

/-! ## Concrete catalogs used by the scenario theorems

Every graph below is assembled with `Builder.addNode`, so its port lists are
exactly what `nodes.rs` `build_node` creates for the template. -/

/-- Wrap a finished graph as the Main function of a one-function catalog. -/
def mkMainState (g : Graph) (vars : List Variable) : AppState :=
  { functions := [(0,
      { graph := g, name := "Main", removable := false,
        modifiable_name := false, variables_list := vars,
        input := [], output := [] })],
    main_graph_id := 0 }

/-- Main containing exactly one Enter node and nothing else. -/
def demoValid : AppState :=
  mkMainState ((Builder.empty.addNode .Enter [] []).1.g) []

/-- `demoValid` with the two default variable declarations of `app.rs`
(`Hello = "World !"`, `Hello_World = true`). -/
def varsDemo : AppState :=
  mkMainState ((Builder.empty.addNode .Enter [] []).1.g)
    [{ name := "Hello", value := .String "World !", removable := true },
     { name := "Hello_World", value := .Boolean true, removable := true }]

/-- A catalog whose single function has no nodes at all. -/
def demoNoEnter : AppState :=
  mkMainState Builder.empty.g []

/-- Main containing two Enter nodes. -/
def twoEntersMainDemo : AppState :=
  mkMainState (((Builder.empty.addNode .Enter [] []).1.addNode .Enter [] []).1.g) []

/-- Two Enter nodes in total: one in Main, one in a second (non-Main)
function. -/
def twoEntersSplitDemo : AppState :=
  { functions := [(0,
      { graph := (Builder.empty.addNode .Enter [] []).1.g, name := "Main",
        removable := false, modifiable_name := false, variables_list := [],
        input := [], output := [] }),
     (1,
      { graph := (Builder.empty.addNode .Enter [] []).1.g, name := "f",
        removable := true, modifiable_name := true, variables_list := [],
        input := [], output := [] })],
    main_graph_id := 0 }

/-- The graph with a self-feeding data cycle: an `AddNumber` node whose
output is wired back into its own first input, and also into a data input of
a walked `Function` node; `Enter` drives the `Function` node. -/
def cycleGraph : Graph :=
  let b0 := Builder.empty
  let bn := b0.addNode .Enter [] []              -- node 0, exec output 1
  let ba := bn.1.addNode .AddNumber [] []        -- node 2, inputs 3 4, output 5
  let bf := ba.1.addNode (.Function (some 99))
      [{ name := "x", value := .Integer 0 }] []  -- node 6, inputs 7 (exec) 8, output 9 (exec)
  (((bf.1.connect 3 5).connect 8 5).connect 7 1).g

/-- Self-feeding data cycle as a catalog. -/
def cycleDemo : AppState :=
  mkMainState cycleGraph []

/-- The diamond-sharing graph: `AddNumber` source `S` feeding both inputs of
a second `AddNumber` `T`, whose output feeds a data input of a walked
`Function` node. -/
def diamondGraph : Graph :=
  let b0 := Builder.empty
  let bn := b0.addNode .Enter [] []              -- node 0, exec output 1
  let bs := bn.1.addNode .AddNumber [] []        -- node 2, inputs 3 4, output 5
  let bt := bs.1.addNode .AddNumber [] []        -- node 6, inputs 7 8, output 9
  let bf := bt.1.addNode (.Function (some 99))
      [{ name := "x", value := .Integer 0 }] []  -- node 10, inputs 11 (exec) 12, output 13 (exec)
  ((((bf.1.connect 7 5).connect 8 5).connect 12 9).connect 11 1).g

/-- Diamond sharing as a catalog. -/
def diamondDemo : AppState :=
  mkMainState diamondGraph []

/-- A walked `Function` node with one declared (Integer) output, so the
walker pre-registers a cache entry. -/
def fnOutDemo : AppState :=
  let bn := Builder.empty.addNode .Enter [] []   -- node 0, exec output 1
  let bf := bn.1.addNode (.Function (some 99)) []
      [{ name := "r", value := .Integer 0 }]     -- node 2, input 3 (exec), outputs 4 (exec) 5
  mkMainState ((bf.1.connect 3 1).g) []

/-- The graph of the spec scenario Enter -> Ask(prompt "name?") ->
Print(answer). -/
def askGraph : Graph :=
  let bn := Builder.empty.addNode .Enter [] []   -- node 0, exec output 1
  let ba := bn.1.addNode .Ask [] []              -- node 2, inputs 3 (exec) 4, outputs 5 (exec) 6 (Answer)
  let bp := ba.1.addNode .Print [] []            -- node 7, inputs 8 (exec) 9, output 10 (exec)
  ((((bp.1.setInputValue 4 (.String "name?")).connect 3 1).connect 8 5).connect 9 6).g

/-- The spec scenario Enter -> Ask(prompt "name?") -> Print(answer). -/
def askDemo : AppState :=
  mkMainState askGraph []

/-- The graph with an execution-edge cycle reachable from Enter: a
`Function` node with a second (signature-declared) execution input, whose
own execution output is wired back into it. -/
def execCycleGraph : Graph :=
  let bn := Builder.empty.addNode .Enter [] []   -- node 0, exec output 1
  let bf := bn.1.addNode (.Function (some 99))
      [{ name := "run", value := .Execution }] []  -- node 2, inputs 3 (exec) 4 (exec), output 5 (exec)
  ((bf.1.connect 3 1).connect 4 5).g

/-- An execution-edge cycle reachable from Enter, as a catalog. -/
def execCycleDemo : AppState :=
  mkMainState execCycleGraph []

/-- The graph Enter -> Print where Print's sole data input is connected to
the output of a (never walked, hence never cached) `AddNumber` data node. -/
def c10Graph : Graph :=
  let bn := Builder.empty.addNode .Enter [] []   -- node 0, exec output 1
  let bs := bn.1.addNode .AddNumber [] []        -- node 2, inputs 3 4, output 5
  let bp := bs.1.addNode .Print [] []            -- node 6, inputs 7 (exec) 8, output 9 (exec)
  ((bp.1.connect 7 1).connect 8 5).g

/-- Enter -> Print with Print's operand fed by a never-cached data output. -/
def c10Demo : AppState :=
  mkMainState c10Graph []

/-! ## Auxiliary definitions for the theorems -/

/-- Sum of template-`t` node counts over a function list. -/
def totalEnterList (t : MyNodeTemplate) (fs : List (FunctionId × GraphFunction)) : Nat :=
  (fs.map (fun f => enterCountGraph f.2.graph t)).sum

/-- Apply a transformation to every function's `variables_list`, leaving
everything else (graphs, names, ids) untouched. -/
def mapVariables (hv : List Variable → List Variable) (s : AppState) : AppState :=
  { functions := s.functions.map (fun p =>
      (p.1, { p.2 with variables_list := hv p.2.variables_list })),
    main_graph_id := s.main_graph_id }

/-- Every cache entry is the pre-registered `var_` placeholder for its own
key (the only kind of text `evaluate_functionn` ever inserts). -/
def CacheVarShaped (c : Cache) : Prop :=
  ∀ p ∈ c, p.2 = "var_" ++ toString p.1

/-- The empty graph. -/
def blankGraph : Graph :=
  Builder.empty.g

/-- A free-standing String input param with inline value `"hi"` and no
connection (for the C8 witness). -/
def c8Param : InputParam :=
  { id := 100, node := 0, name := "What ?", typ := .String,
    value := .String "hi", kind := .ConnectionOrConstant }

/-- The `"What ?"` input param of the Print node of `c10Graph` (input id 8,
connected to the never-cached output 5). -/
def c10Param : InputParam :=
  { id := 8, node := 6, name := "What ?", typ := .String,
    value := .String "", kind := .ConnectionOrConstant }

/-- Number of declared variables of the designated Main function. -/
def mainVariablesCount (s : AppState) : Nat :=
  match lookupFunction s.functions s.main_graph_id with
  | none => 0
  | some gf => gf.variables_list.length

/-- Number of output ports of the Ask node (node id 2) of `askGraph`. -/
def askOutputsCount : Nat :=
  match lookupNode askGraph 2 with
  | none => 0
  | some n => n.outputs.length

/-- The Function node of `execCycleGraph`. -/
def fNodeCyc : Node :=
  { id := 2, template := .Function (some 99),
    inputs := [("", 3), ("run", 4)], outputs := [("", 5)] }

/-- The Enter node of `execCycleGraph`. -/
def enterNodeCyc : Node :=
  { id := 0, template := .Enter, inputs := [], outputs := [("Enter", 1)] }

/-! ## Validation-scan lemmas -/

theorem scanNodes_error_classify (isMain : Bool) (t : MyNodeTemplate)
    (ns : List (NodeId × Node)) (st : Option NodeId) (e : String)
    (h : scanNodes isMain t ns st = .error e) :
    e = "You have Too many Enter Nodes" ∨ e = "A Enter node in a function" := by
  induction ns generalizing st with
  | nil => cases h
  | cons p rest ih =>
    unfold scanNodes at h
    split at h
    · split at h
      · split at h
        · exact ih _ h
        · cases h
          left
          rfl
      · cases h
        right
        rfl
    · exact ih _ h

theorem scanFunctions_error_classify (mainId : FunctionId) (t : MyNodeTemplate)
    (fs : List (FunctionId × GraphFunction)) (st : Option NodeId) (e : String)
    (h : scanFunctions mainId t fs st = .error e) :
    e = "You have Too many Enter Nodes" ∨ e = "A Enter node in a function" := by
  induction fs generalizing st with
  | nil => cases h
  | cons f rest ih =>
    unfold scanFunctions at h
    split at h
    · rename_i e' heq
      cases h
      exact scanNodes_error_classify _ t _ st _ heq
    · exact ih _ h

theorem scanNodes_count_zero (m : Bool) (t : MyNodeTemplate)
    (ns : List (NodeId × Node)) (st : Option NodeId)
    (h : countEnterNodes t ns = 0) : scanNodes m t ns st = .ok st := by
  induction ns generalizing st with
  | nil => rfl
  | cons p rest ih =>
    unfold countEnterNodes at h
    unfold scanNodes
    split
    · rename_i hp
      rw [if_pos hp] at h
      omega
    · rename_i hp
      apply ih
      rw [if_neg hp] at h
      omega

theorem scanNodes_some_toomany (t : MyNodeTemplate) (ns : List (NodeId × Node))
    (x : NodeId) (h : 1 ≤ countEnterNodes t ns) :
    scanNodes true t ns (some x) = .error "You have Too many Enter Nodes" := by
  induction ns with
  | nil => simp [countEnterNodes] at h
  | cons p rest ih =>
    unfold countEnterNodes at h
    unfold scanNodes
    split
    · rfl
    · rename_i hp
      apply ih
      rw [if_neg hp] at h
      omega

theorem scanNodes_none_toomany (t : MyNodeTemplate) (ns : List (NodeId × Node))
    (h : 2 ≤ countEnterNodes t ns) :
    scanNodes true t ns none = .error "You have Too many Enter Nodes" := by
  induction ns with
  | nil => simp [countEnterNodes] at h
  | cons p rest ih =>
    unfold countEnterNodes at h
    unfold scanNodes
    split
    · rename_i hp
      rw [if_pos hp] at h
      have h1 : 1 ≤ countEnterNodes t rest := by omega
      simpa using scanNodes_some_toomany t rest p.1 h1
    · rename_i hp
      apply ih
      rw [if_neg hp] at h
      omega

theorem scanNodes_count_one (t : MyNodeTemplate) (ns : List (NodeId × Node))
    (h : countEnterNodes t ns = 1) :
    ∃ y, scanNodes true t ns none = .ok (some y) := by
  induction ns with
  | nil => simp [countEnterNodes] at h
  | cons p rest ih =>
    unfold countEnterNodes at h
    unfold scanNodes
    split
    · rename_i hp
      refine ⟨p.1, ?_⟩
      rw [if_pos hp] at h
      have h0 : countEnterNodes t rest = 0 := by omega
      simpa using scanNodes_count_zero true t rest (some p.1) h0
    · rename_i hp
      apply ih
      rw [if_neg hp] at h
      omega

theorem scanFunctions_toomany (mainId : FunctionId) (t : MyNodeTemplate) :
    ∀ (fs : List (FunctionId × GraphFunction)) (st : Option NodeId),
    (∀ f ∈ fs, f.1 ≠ mainId → countEnterNodes t f.2.graph.nodes = 0) →
    ((st ≠ none ∧ 1 ≤ totalEnterList t fs) ∨ (st = none ∧ 2 ≤ totalEnterList t fs)) →
    scanFunctions mainId t fs st = .error "You have Too many Enter Nodes" := by
  intro fs
  induction fs with
  | nil =>
    intro st hf hd
    exfalso
    rcases hd with ⟨_, h1⟩ | ⟨_, h1⟩ <;> simp [totalEnterList] at h1
  | cons f rest ih =>
    intro st hf hd
    have hsplit : totalEnterList t (f :: rest) =
        countEnterNodes t f.2.graph.nodes + totalEnterList t rest := by
      simp [totalEnterList, enterCountGraph]
    have hrest : ∀ f' ∈ rest, f'.1 ≠ mainId → countEnterNodes t f'.2.graph.nodes = 0 :=
      fun f' hf' hne => hf f' (List.mem_cons_of_mem f hf') hne
    unfold scanFunctions
    by_cases hm : f.1 = mainId
    · have hb : decide (f.1 = mainId) = true := decide_eq_true hm
      rw [hb]
      cases st with
      | some x =>
        rcases hd with ⟨_, htot⟩ | ⟨hnone, _⟩
        · by_cases hc : 1 ≤ countEnterNodes t f.2.graph.nodes
          · rw [scanNodes_some_toomany t _ x hc]
          · have hc0 : countEnterNodes t f.2.graph.nodes = 0 := by omega
            rw [scanNodes_count_zero true t _ (some x) hc0]
            apply ih
            · exact hrest
            · left
              refine ⟨by simp, ?_⟩
              rw [hsplit] at htot
              omega
        · simp at hnone
      | none =>
        rcases hd with ⟨hne, _⟩ | ⟨_, htot⟩
        · exact absurd rfl hne
        · rw [hsplit] at htot
          by_cases hc2 : 2 ≤ countEnterNodes t f.2.graph.nodes
          · rw [scanNodes_none_toomany t _ hc2]
          · by_cases hc1 : countEnterNodes t f.2.graph.nodes = 1
            · obtain ⟨y, hy⟩ := scanNodes_count_one t _ hc1
              rw [hy]
              apply ih
              · exact hrest
              · left
                exact ⟨by simp, by omega⟩
            · have hc0 : countEnterNodes t f.2.graph.nodes = 0 := by omega
              rw [scanNodes_count_zero true t _ none hc0]
              apply ih
              · exact hrest
              · right
                exact ⟨rfl, by omega⟩
    · have hc0 : countEnterNodes t f.2.graph.nodes = 0 := hf f (List.mem_cons_self f rest) hm
      rw [scanNodes_count_zero _ t _ st hc0]
      apply ih
      · exact hrest
      · rw [hsplit] at hd
        rcases hd with ⟨hne, htot⟩ | ⟨hnone, htot⟩
        · left
          exact ⟨hne, by omega⟩
        · right
          exact ⟨hnone, by omega⟩

/-! ## Cache-shape invariant: the walker only ever inserts placeholders -/

theorem cacheInsert_varShaped {c : Cache} (h : CacheVarShaped c) (o : OutputId) :
    CacheVarShaped (cacheInsert c o ("var_" ++ toString o)) := by
  intro p hp
  rcases List.mem_cons.mp hp with h1 | h2
  · rw [h1]
  · exact h p h2

theorem foldlOutputs_varShaped (os : List OutputParam) :
    ∀ (acc : List OutputId × Cache), CacheVarShaped acc.2 →
    CacheVarShaped ((os.foldl (fun acc p =>
      if p.typ = .Execution then (acc.1 ++ [p.id], acc.2)
      else (acc.1, cacheInsert acc.2 p.id ("var_" ++ toString p.id))) acc)).2 := by
  induction os with
  | nil => intro acc h; exact h
  | cons p rest ih =>
    intro acc h
    rw [List.foldl_cons]
    apply ih
    by_cases hp : p.typ = .Execution
    · simpa [hp] using h
    · simpa [hp] using cacheInsert_varShaped h p.id

theorem collectOutputs_varShaped (os : List OutputParam) (c : Cache)
    (h : CacheVarShaped c) : CacheVarShaped (collectOutputs os c).2 := by
  unfold collectOutputs
  exact foldlOutputs_varShaped os ([], c) h

theorem runConns_varShaped (ev : Node → Cache → ERes (String × Cache)) (g : Graph)
    (y : OutputId)
    (hev : ∀ z c, CacheVarShaped c → ∀ sc, ev z c = .ok sc → CacheVarShaped sc.2) :
    ∀ (conns : List (InputId × OutputId)) (cache : Cache), CacheVarShaped cache →
    ∀ sc, runConns ev g y conns cache = .ok sc → CacheVarShaped sc.2 := by
  intro conns
  induction conns with
  | nil =>
    intro cache h sc hr
    cases hr
    exact h
  | cons c rest ih =>
    intro cache h sc hr
    unfold runConns at hr
    split at hr
    · split at hr
      · cases hr
      · split at hr
        · split at hr
          · cases hr
          · cases hr
          · rename_i sc0 heq0
            cases hr
            exact ih cache h sc0 heq0
        · split at hr
          · cases hr
          · cases hr
          · rename_i sc1 heq1
            split at hr
            · cases hr
            · cases hr
            · rename_i z _ sc2 heq2
              cases hr
              exact ih sc1.2 (hev _ cache h sc1 heq1) sc2 heq2
    · exact ih cache h sc hr

theorem runExecs_varShaped (ev : Node → Cache → ERes (String × Cache)) (g : Graph)
    (hev : ∀ z c, CacheVarShaped c → ∀ sc, ev z c = .ok sc → CacheVarShaped sc.2) :
    ∀ (ys : List OutputId) (cache : Cache), CacheVarShaped cache →
    ∀ sc, runExecs ev g ys cache = .ok sc → CacheVarShaped sc.2 := by
  intro ys
  induction ys with
  | nil =>
    intro cache h sc hr
    cases hr
    exact h
  | cons y ys' ih =>
    intro cache h sc hr
    unfold runExecs at hr
    split at hr
    · cases hr
    · cases hr
    · rename_i sc1 heq1
      split at hr
      · cases hr
      · cases hr
      · rename_i sc2 heq2
        cases hr
        exact ih sc1.2 (runConns_varShaped ev g y hev g.connections cache h sc1 heq1) sc2 heq2

theorem evalNode_varShaped :
    ∀ (fuel : Nat) (g : Graph) (n : Node) (cache : Cache), CacheVarShaped cache →
    ∀ sc, evalNode fuel g n cache = .ok sc → CacheVarShaped sc.2 := by
  intro fuel
  induction fuel with
  | zero => intro g n cache h sc hr; cases hr
  | succ f ih =>
    intro g n cache h sc hr
    unfold evalNode at hr
    split at hr
    · cases hr
    · split at hr
      · cases hr
      · dsimp only at hr
        split at hr
        · cases hr
        · cases hr
        · rename_i sc1 heq1
          split at hr
          · cases hr
          · cases hr
            exact runExecs_varShaped _ g (fun z c hc sc0 h0 => ih g z c hc sc0 h0)
              _ _ (collectOutputs_varShaped _ cache h) sc1 heq1

/-! ## `compile` never reads the variable declarations -/

theorem scanFunctions_mapVariables (mainId : FunctionId) (t : MyNodeTemplate)
    (hv : List Variable → List Variable) :
    ∀ (fs : List (FunctionId × GraphFunction)) (st : Option NodeId),
    scanFunctions mainId t (fs.map (fun p =>
      (p.1, { p.2 with variables_list := hv p.2.variables_list }))) st
      = scanFunctions mainId t fs st := by
  intro fs
  induction fs with
  | nil => intro st; rfl
  | cons f rest ih =>
    intro st
    rw [List.map_cons]
    unfold scanFunctions
    dsimp only
    cases hsn : scanNodes (decide (f.1 = mainId)) t f.2.graph.nodes st with
    | error e => rfl
    | ok st' => exact ih st'

theorem lookupFunction_mapVariables (hv : List Variable → List Variable)
    (fid : FunctionId) :
    ∀ fs : List (FunctionId × GraphFunction),
    lookupFunction (fs.map (fun p =>
      (p.1, { p.2 with variables_list := hv p.2.variables_list }))) fid
      = (lookupFunction fs fid).map
          (fun gf => { gf with variables_list := hv gf.variables_list }) := by
  intro fs
  induction fs with
  | nil => rfl
  | cons f rest ih =>
    rw [List.map_cons]
    cases hb : f.1 == fid with
    | true => simp [lookupFunction, List.find?_cons, hb]
    | false => simpa [lookupFunction, List.find?_cons, hb] using ih

/-! ## The walker diverges on the execution-edge cycle -/

theorem evalNode_execCycle_fuelOut :
    ∀ (fuel : Nat) (cache : Cache),
      evalNode fuel execCycleGraph fNodeCyc cache = .fuelOut := by
  intro fuel
  induction fuel with
  | zero => intro cache; rfl
  | succ f ih =>
    intro cache
    have hstep : evalNode (f + 1) execCycleGraph fNodeCyc cache =
        (match runExecs (fun z cc => evalNode f execCycleGraph z cc) execCycleGraph
            [5] cache with
         | .panic => .panic
         | .fuelOut => .fuelOut
         | .ok sc =>
           match scriptLine fNodeCyc sc.2 [] sc.1 with
           | none => .panic
           | some line => .ok (line ++ " -- " ++ ((sc.1.get? 0).getD "default"), sc.2)) := rfl
    have hconns : runConns (fun z cc => evalNode f execCycleGraph z cc) execCycleGraph 5
        execCycleGraph.connections cache = .fuelOut := by
      have h0 : runConns (fun z cc => evalNode f execCycleGraph z cc) execCycleGraph 5
          execCycleGraph.connections cache =
          (match evalNode f execCycleGraph fNodeCyc cache with
           | .panic => .panic
           | .fuelOut => .fuelOut
           | .ok sc =>
             (match runConns (fun z cc => evalNode f execCycleGraph z cc) execCycleGraph 5
                 [(3, 1)] sc.2 with
              | .panic => .panic
              | .fuelOut => .fuelOut
              | .ok sc' => .ok (sc.1 :: sc'.1, sc'.2))) := rfl
      rw [h0, ih cache]
    have hexe : runExecs (fun z cc => evalNode f execCycleGraph z cc) execCycleGraph
        [5] cache = .fuelOut := by
      have h1 : runExecs (fun z cc => evalNode f execCycleGraph z cc) execCycleGraph
          [5] cache =
          (match runConns (fun z cc => evalNode f execCycleGraph z cc) execCycleGraph 5
              execCycleGraph.connections cache with
           | .panic => .panic
           | .fuelOut => .fuelOut
           | .ok sc =>
             match runExecs (fun z cc => evalNode f execCycleGraph z cc) execCycleGraph
                 [] sc.2 with
             | .panic => .panic
             | .fuelOut => .fuelOut
             | .ok sc' => .ok (sc.1 ++ sc'.1, sc'.2)) := rfl
      rw [h1, hconns]
    rw [hstep, hexe]

/-! ## The claims -/

/-- Claim C1, counterexample: on a catalog that passes Enter validation
(one Enter node, in Main), `compile` succeeds but its success value is
`MyValueType::Boolean { value: true }` — not the generated script (which is
only printed); the Boolean value is a different value from any Script text. -/
theorem c1_counterexample :
    compile 10 demoValid .Enter = RunRes.ok (MyValueType.Boolean true) " -- default" []
    ∧ MyValueType.Boolean true ≠ MyValueType.String " -- default" := by
  exact ⟨by decide, by decide⟩

/-- Claim C1, amended: whenever `compile` returns a success value, that
value is `MyValueType::Boolean { value: true }`; the generated script is
printed, not returned. -/
theorem c1_theorem (fuel : Nat) (s : AppState) (t : MyNodeTemplate)
    (v : MyValueType) (sc : String) (c : Cache)
    (h : compile fuel s t = RunRes.ok v sc c) : v = MyValueType.Boolean true := by
  unfold compile at h
  (try split at h) <;> (try split at h) <;> (try split at h) <;> (try split at h)
  all_goals cases h
  rfl

/-- Claim C1, witness: the amended theorem applied to the valid one-Enter
catalog. -/
theorem c1_witness :
    compile 10 demoValid .Enter = RunRes.ok (MyValueType.Boolean true) " -- default" []
    ∧ MyValueType.Boolean true = MyValueType.Boolean true :=
  ⟨by decide,
   c1_theorem 10 demoValid .Enter (MyValueType.Boolean true) " -- default" [] (by decide)⟩

/-- Claim C2, counterexample: on a graph with a self-feeding data cycle
(output 5 of the `AddNumber` node is wired back into that node's own input 3
and also into input 8 of the walked `Function` node), `compile` returns
success — no `CycleDetected` error, the cycle is silently ignored because
data connections are never traversed. -/
theorem c2_counterexample :
    compile 10 cycleDemo .Enter = RunRes.ok (MyValueType.Boolean true) " --  -- default" []
    ∧ graphConnection cycleGraph 3 = some 5
    ∧ graphConnection cycleGraph 8 = some 5 := by
  exact ⟨by decide, by decide, by decide⟩

/-- Claim C2, amended: the resolver performs no recursion into data nodes
and no cycle detection; the only errors `compile` can return are the three
Enter-validation messages — no `CycleDetected` error exists. -/
theorem c2_theorem (fuel : Nat) (s : AppState) (t : MyNodeTemplate) (e : String)
    (h : compile fuel s t = RunRes.err e) :
    e = "You have Too many Enter Nodes" ∨ e = "A Enter node in a function" ∨
      e = "You don't have any Enter node" := by
  unfold compile at h
  split at h
  · rename_i e' heq
    cases h
    rcases scanFunctions_error_classify s.main_graph_id t s.functions none _ heq with h1 | h1
    · exact Or.inl h1
    · exact Or.inr (Or.inl h1)
  · cases h
    exact Or.inr (Or.inr rfl)
  · (try split at h) <;> (try split at h) <;> (try split at h)
    all_goals cases h

/-- Claim C2, witness: the amended theorem applied to the empty catalog. -/
theorem c2_witness :
    compile 1 demoNoEnter .Enter = RunRes.err "You don't have any Enter node"
    ∧ ("You don't have any Enter node" = "You have Too many Enter Nodes"
       ∨ "You don't have any Enter node" = "A Enter node in a function"
       ∨ "You don't have any Enter node" = "You don't have any Enter node") :=
  ⟨by decide, c2_theorem 1 demoNoEnter .Enter "You don't have any Enter node" (by decide)⟩

/-- Claim C3, counterexample: a catalog with two Enter nodes (one in Main,
one in a second function) has more than one Enter node, yet `compile` fails
with the Enter-in-function error, not the too-many-Enter-nodes error. -/
theorem c3_counterexample :
    totalEnterCount twoEntersSplitDemo .Enter = 2
    ∧ compile 10 twoEntersSplitDemo .Enter = RunRes.err "A Enter node in a function"
    ∧ "A Enter node in a function" ≠ "You have Too many Enter Nodes" := by
  exact ⟨by decide, by decide, by decide⟩

/-- Claim C3, amended: more than one Enter node yields the
`MultipleEnterNodes` error when every Enter node lies in Main; an Enter node
encountered in a non-Main function instead aborts with `EnterInFunction`
regardless of the total count. -/
theorem c3_theorem (fuel : Nat) (s : AppState) (t : MyNodeTemplate)
    (hOnly : ∀ f ∈ s.functions, f.1 ≠ s.main_graph_id → enterCountGraph f.2.graph t = 0)
    (hTwo : 2 ≤ totalEnterCount s t) :
    compile fuel s t = RunRes.err "You have Too many Enter Nodes" := by
  unfold compile
  rw [scanFunctions_toomany s.main_graph_id t s.functions none hOnly (Or.inr ⟨rfl, hTwo⟩)]

/-- Claim C3, witness: the amended theorem applied to a Main with two Enter
nodes. -/
theorem c3_witness :
    compile 7 twoEntersMainDemo .Enter = RunRes.err "You have Too many Enter Nodes" :=
  c3_theorem 7 twoEntersMainDemo .Enter (by decide) (by decide)

/-- Claim C4, counterexample: in the diamond-sharing graph the shared
`AddNumber` source is never evaluated: `compile` succeeds, the final
`OutputCache` is empty (output 5 of the shared source was never populated),
and the script contains no `evaluate_data` product (no `"(+"` text), so the
hook ran zero times, not exactly once. -/
theorem c4_counterexample :
    compile 10 diamondDemo .Enter = RunRes.ok (MyValueType.Boolean true) " --  -- default" []
    ∧ evaluate_data .AddNumber ["0", "0"] = some "(+ 0 0)"
    ∧ ¬ ("(+".toList <:+: " --  -- default".toList)
    ∧ cacheFind [] 5 = none := by
  exact ⟨by decide, by decide, by decide, by decide⟩

/-- Claim C4, amended: `compile` never invokes `evaluate_data`; every entry
the `OutputCache` ever holds on success is the pre-registered
`var_<outputId>` placeholder for its own key, never an evaluated data
expression. -/
theorem c4_theorem (fuel : Nat) (s : AppState) (t : MyNodeTemplate)
    (v : MyValueType) (sc : String) (cache : Cache)
    (h : compile fuel s t = RunRes.ok v sc cache) :
    ∀ p ∈ cache, p.2 = "var_" ++ toString p.1 := by
  unfold compile at h
  (try split at h) <;> (try split at h) <;> (try split at h) <;> (try split at h)
  all_goals cases h
  rename_i sc1 heq1
  exact evalNode_varShaped fuel _ _ [] (by intro p hp; cases hp) sc1 heq1

/-- Claim C4, witness: the amended theorem applied to a catalog whose walk
populates one cache entry. -/
theorem c4_witness :
    compile 10 fnOutDemo .Enter =
      RunRes.ok (MyValueType.Boolean true) " --  -- default" [(5, "var_5")]
    ∧ "var_5" = "var_" ++ toString (5 : Nat) :=
  ⟨by decide,
   c4_theorem 10 fnOutDemo .Enter (MyValueType.Boolean true) " --  -- default"
     [(5, "var_5")] (by decide) (5, "var_5") (by simp)⟩

/-- Claim C5, counterexample: Main declares two variables (`Hello`,
`Hello_World`) yet the produced script is exactly the walk output
`" -- default"`: it contains no local-declaration prelude, none of the
defaults (`"World !"`) appear, and the output is identical to that of the
same catalog with no variable declarations at all. -/
theorem c5_counterexample :
    compile 10 varsDemo .Enter = RunRes.ok (MyValueType.Boolean true) " -- default" []
    ∧ mainVariablesCount varsDemo = 2
    ∧ ¬ ("World !".toList <:+: " -- default".toList)
    ∧ ¬ ("Hello".toList <:+: " -- default".toList)
    ∧ compile 10 varsDemo .Enter = compile 10 demoValid .Enter := by
  exact ⟨by decide, by decide, by decide, by decide, by decide⟩

/-- Claim C5, amended: no prelude is emitted; `compile` never reads any
function's `variables_list`, so its result is invariant under arbitrary
changes to the variable declarations. -/
theorem c5_theorem (fuel : Nat) (s : AppState) (t : MyNodeTemplate)
    (hv : List Variable → List Variable) :
    compile fuel (mapVariables hv s) t = compile fuel s t := by
  unfold compile mapVariables
  dsimp only
  rw [scanFunctions_mapVariables s.main_graph_id t hv s.functions none]
  cases hscan : scanFunctions s.main_graph_id t s.functions none with
  | error e => rfl
  | ok ost =>
    cases ost with
    | none => rfl
    | some enterId =>
      rw [lookupFunction_mapVariables hv s.main_graph_id s.functions]
      cases hlf : lookupFunction s.functions s.main_graph_id with
      | none => rfl
      | some gf => rfl

/-- Claim C6 (code bug): on the scenario graph Enter -> Ask(prompt
"name?") -> Print(answer), `compile` does not succeed: the Ask statement arm
indexes `next_node.outputs[2]`, but an Ask node as built by `build_node` has
exactly 2 outputs (the execution output and `Answer`), so the scenario
panics with an index out of bounds instead of producing the read-binding
and write statements. -/
theorem c6_theorem :
    compile 10 askDemo .Enter = RunRes.panic ∧ askOutputsCount = 2 := by
  exact ⟨by decide, by decide⟩

/-- Claim C7: two `compile` invocations on the same unmodified catalog
snapshot return the same result and byte-identical script text; each call
owns a fresh `OutputCache`, and no mutable state survives between calls. -/
theorem c7_theorem (fuel : Nat) (s : AppState) (t : MyNodeTemplate) :
    (compileTwice fuel s t).1 = (compileTwice fuel s t).2 := rfl

/-- Claim C8: a non-execution input with no incoming connection resolves to
its rendered inline value — a String value wrapped in double quotes,
Integer, Float and Boolean values as their literal text — and an
Execution-typed input never reaches the inline-rendering path (it always
contributes `none`). -/
theorem c8_theorem (g : Graph) (cache : Cache) (p : InputParam)
    (hne : p.typ ≠ MyDataType.Execution)
    (hnc : graphConnection g p.id = none) :
    resolveInput g cache p = some (renderValue p.value)
    ∧ (∀ v, p.value = .String v → renderValue p.value = "\"" ++ v ++ "\"")
    ∧ (∀ v, p.value = .Integer v → renderValue p.value = toString v)
    ∧ (∀ v, p.value = .Float v → renderValue p.value = v)
    ∧ (∀ v, p.value = .Boolean v → renderValue p.value = toString v)
    ∧ (∀ q : InputParam, q.typ = .Execution → resolveInput g cache q = none) := by
  refine ⟨?_, ?_, ?_, ?_, ?_, ?_⟩
  · unfold resolveInput
    rw [if_neg hne, hnc]
  · intro v hv
    rw [hv]
    rfl
  · intro v hv
    rw [hv]
    rfl
  · intro v hv
    rw [hv]
    rfl
  · intro v hv
    rw [hv]
    rfl
  · intro q hq
    unfold resolveInput
    rw [if_pos hq]

/-- Claim C8, witness: the theorem applied to an unconnected String input
with inline value `"hi"`. -/
theorem c8_witness : resolveInput blankGraph [] c8Param = some "\"hi\"" :=
  (c8_theorem blankGraph [] c8Param (by decide) (by decide)).1

/-- Claim C9: the execution-flow walker has no termination guard on the
control side: on the graph whose execution edges form a cycle reachable
from Enter (a Function node whose execution output feeds its own second
execution input), the walk exhausts every finite recursion budget — for
every fuel value the result is `fuelOut`, i.e. the Rust recursion never
terminates. -/
theorem c9_theorem : ∀ fuel : Nat, compile fuel execCycleDemo .Enter = RunRes.fuelOut := by
  intro fuel
  cases fuel with
  | zero => rfl
  | succ f =>
    have hconns : runConns (fun z cc => evalNode f execCycleGraph z cc) execCycleGraph 1
        execCycleGraph.connections [] = .fuelOut := by
      have h0 : runConns (fun z cc => evalNode f execCycleGraph z cc) execCycleGraph 1
          execCycleGraph.connections [] =
          (match evalNode f execCycleGraph fNodeCyc [] with
           | .panic => .panic
           | .fuelOut => .fuelOut
           | .ok sc =>
             (match runConns (fun z cc => evalNode f execCycleGraph z cc) execCycleGraph 1
                 ([] : List (InputId × OutputId)) sc.2 with
              | .panic => .panic
              | .fuelOut => .fuelOut
              | .ok sc' => .ok (sc.1 :: sc'.1, sc'.2))) := rfl
      rw [h0, evalNode_execCycle_fuelOut f []]
    have hexe : runExecs (fun z cc => evalNode f execCycleGraph z cc) execCycleGraph
        [1] [] = .fuelOut := by
      have h1 : runExecs (fun z cc => evalNode f execCycleGraph z cc) execCycleGraph
          [1] [] =
          (match runConns (fun z cc => evalNode f execCycleGraph z cc) execCycleGraph 1
              execCycleGraph.connections [] with
           | .panic => .panic
           | .fuelOut => .fuelOut
           | .ok sc =>
             match runExecs (fun z cc => evalNode f execCycleGraph z cc) execCycleGraph
                 [] sc.2 with
             | .panic => .panic
             | .fuelOut => .fuelOut
             | .ok sc' => .ok (sc.1 ++ sc'.1, sc'.2)) := rfl
      rw [h1, hconns]
    have henter : evalNode (f + 1) execCycleGraph enterNodeCyc [] = .fuelOut := by
      have hstep : evalNode (f + 1) execCycleGraph enterNodeCyc [] =
          (match runExecs (fun z cc => evalNode f execCycleGraph z cc) execCycleGraph
              [1] [] with
           | .panic => .panic
           | .fuelOut => .fuelOut
           | .ok sc =>
             match scriptLine enterNodeCyc sc.2 [] sc.1 with
             | none => .panic
             | some line => .ok (line ++ " -- " ++ ((sc.1.get? 0).getD "default"), sc.2)) := rfl
      rw [hstep, hexe]
    have hc : compile (f + 1) execCycleDemo .Enter =
        (match evalNode (f + 1) execCycleGraph enterNodeCyc [] with
         | .panic => RunRes.panic
         | .fuelOut => RunRes.fuelOut
         | .ok sc => RunRes.ok (MyValueType.Boolean true) sc.1 sc.2) := rfl
    rw [hc, henter]

/-- Claim C10: a non-execution input connected to an output absent from the
`OutputCache` is silently dropped from the operand list (resolves to
`none`), and concretely, Enter -> Print with Print's sole data input fed by
a never-walked data node's output makes the Print hook index an empty
operand list: `compile` panics (index out of bounds). -/
theorem c10_theorem :
    (∀ (g : Graph) (cache : Cache) (p : InputParam) (o : OutputId),
        p.typ ≠ MyDataType.Execution → graphConnection g p.id = some o →
        cacheFind cache o = none → resolveInput g cache p = none)
    ∧ compile 10 c10Demo .Enter = RunRes.panic := by
  constructor
  · intro g cache p o hne hc hm
    unfold resolveInput
    rw [if_neg hne, hc]
    exact hm
  · decide

/-- Claim C10, witness: the dropped-operand fact applied to the actual
Print input of the scenario graph (input 8, connected to the never-cached
output 5). -/
theorem c10_witness : resolveInput c10Graph [] c10Param = none :=
  (c10_theorem).1 c10Graph [] c10Param 5 (by decide) (by decide) (by decide)
